import Mathlib

/-!
# Verification of the `strategies` repository

A shallow embedding of the three freqtrade strategy modules
(`shinonV1.py`, `shinonV2.py`, `zaratustraV2.py`) and proofs about
their callback hooks.

Modelling conventions:
* A dataframe is a `List` of row structures; each column is an
  `Option ℚ` field, with `none` standing for pandas `NaN` (or for a
  value in a column that is absent / was never assigned).
* Pandas comparisons propagate `NaN` as `False`; the `oGT`/`oLT`/`oLE`/
  `oGE`/`oEQ` helpers encode that.
* Library indicator functions (talib, qtpylib) are external to the
  repository; where a claim does not depend on their values they are
  taken as function parameters; `taEMA` is a concrete model of talib's
  EMA used for concrete evaluations.
* Python `min`/`max` on floats return the first argument when the other
  operand is `NaN` (all comparisons with `NaN` are false); `pyminNaN` /
  `pymaxNaN` encode the two shapes used by the source.
* A fallible Python call is embedded as `Except String _`, with the
  error string naming the exception the interpreter would raise.
-/

set_option autoImplicit false

universe u v

/-! ## Pandas-style comparison and arithmetic helpers -/

/-- Pandas `>` on two possibly-NaN values: `NaN` compares as `False`. -/
def oGT : Option ℚ → Option ℚ → Bool
  | some a, some b => a > b
  | _, _ => false

/-- Pandas `<` on two possibly-NaN values: `NaN` compares as `False`. -/
def oLT : Option ℚ → Option ℚ → Bool
  | some a, some b => a < b
  | _, _ => false

/-- Pandas `<=` on two possibly-NaN values: `NaN` compares as `False`. -/
def oLE : Option ℚ → Option ℚ → Bool
  | some a, some b => a ≤ b
  | _, _ => false

/-- Pandas `>=` on two possibly-NaN values: `NaN` compares as `False`. -/
def oGE : Option ℚ → Option ℚ → Bool
  | some a, some b => a ≥ b
  | _, _ => false

/-- Pandas `==` on two possibly-NaN values: `NaN` compares as `False`. -/
def oEQ : Option ℚ → Option ℚ → Bool
  | some a, some b => a = b
  | _, _ => false

/-- Elementwise product of two columns, `NaN`-propagating. -/
def oMul : Option ℚ → Option ℚ → Option ℚ
  | some a, some b => some (a * b)
  | _, _ => none

/-- Elementwise quotient of two columns, `NaN`-propagating
(rational division; the claims never exercise division by zero). -/
def oDivO : Option ℚ → Option ℚ → Option ℚ
  | some a, some b => some (a / b)
  | _, _ => none

/-- Python `min(x, y)` where `x` may be `NaN` and `y` is a real:
`min(NaN, y) = NaN` because no later element compares below `NaN`. -/
def pyminNaN (x : Option ℚ) (y : ℚ) : Option ℚ :=
  match x with
  | some a => some (min a y)
  | none => none

/-- Python `max(x, y)` where `x` is a real and `y` may be `NaN`:
`max(x, NaN) = x` because `NaN > x` is false. -/
def pymaxNaN (x : ℚ) (y : Option ℚ) : ℚ :=
  match y with
  | some b => max x b
  | none => x

/-! ## Column and dataframe helpers -/

/-- Value of a column (a list of possibly-NaN cells) at row `i`;
rows beyond the column's length read as `NaN`, matching pandas
index alignment for a too-short assigned series. -/
def colAt (col : List (Option ℚ)) (i : ℕ) : Option ℚ :=
  (col.get? i).getD none

/-- Map a row-and-index function over a dataframe, starting at index `k`.
This models assigning precomputed columns into the dataframe. -/
def attachWith {α : Type u} (f : ℕ → α → α) : ℕ → List α → List α
  | _, [] => []
  | i, r :: rest => f i r :: attachWith f (i + 1) rest

theorem attachWith_length {α : Type u} (f : ℕ → α → α) :
    ∀ (k : ℕ) (l : List α), (attachWith f k l).length = l.length
  | _, [] => rfl
  | k, _ :: rest => congrArg Nat.succ (attachWith_length f (k + 1) rest)

theorem attachWith_get? {α : Type u} (f : ℕ → α → α) :
    ∀ (k : ℕ) (l : List α) (i : ℕ),
      (attachWith f k l).get? i = (l.get? i).map (f (k + i)) := by
  intro k l
  induction l generalizing k with
  | nil => intro i; simp [attachWith]
  | cons a rest ih =>
    intro i
    cases i with
    | zero => simp [attachWith]
    | succ j =>
      simp only [attachWith, List.get?]
      rw [ih (k + 1) j]
      have : k + 1 + j = k + (j + 1) := by omega
      rw [this]

theorem attachWith_map {α : Type u} {β : Type v} (f : ℕ → α → α) (g : α → β)
    (h : ∀ i a, g (f i a) = g a) :
    ∀ (k : ℕ) (l : List α), (attachWith f k l).map g = l.map g
  | _, [] => rfl
  | k, a :: rest => by
    simp only [attachWith, List.map, h k a]
    rw [attachWith_map f g h (k + 1) rest]

theorem zip_get? {α : Type u} {β : Type v} :
    ∀ (l1 : List α) (l2 : List β) (i : ℕ),
      (l1.zip l2).get? i =
        (l1.get? i).bind fun a => (l2.get? i).map fun b => (a, b) := by
  intro l1
  induction l1 with
  | nil => intro l2 i; simp [List.zip]
  | cons a rest ih =>
    intro l2 i
    cases l2 with
    | nil => cases i <;> simp [List.zip]
    | cons b rest2 =>
      cases i with
      | zero => simp [List.zip]
      | succ j => simpa [List.zip] using ih rest2 j

/-- Pair every row with the previous row (`none` for the first row),
modelling `series.shift(1)` access in crossover computations. -/
def withPrev {α : Type u} (l : List α) : List (Option α × α) :=
  (none :: l.map some).zip l

/-- The previous row of a dataframe at index `i` (`none` at the start). -/
def prevAt {α : Type u} (l : List α) : ℕ → Option α
  | 0 => none
  | i + 1 => l.get? i

theorem withPrev_get? {α : Type u} (l : List α) (i : ℕ) (r : α)
    (h : l.get? i = some r) :
    (withPrev l).get? i = some (prevAt l i, r) := by
  have hlen : i < l.length := by
    obtain ⟨h1, -⟩ := List.get?_eq_some.mp h
    exact h1
  unfold withPrev
  rw [zip_get?, h]
  cases i with
  | zero => rfl
  | succ j =>
    have hj : j < l.length := Nat.lt_of_succ_lt hlen
    have hpj : l.get? j = some (l.get ⟨j, hj⟩) := List.get?_eq_get hj
    have hmap : (l.map some).get? j = some (some (l.get ⟨j, hj⟩)) := by
      rw [List.get?_map, hpj]; rfl
    show ((none :: l.map some).get? (j + 1)).bind
        (fun a => (some r).map fun b => (a, b)) = some (prevAt l (j + 1), r)
    have hcons : (none :: l.map some).get? (j + 1) = (l.map some).get? j := rfl
    rw [hcons, hmap]
    simp [prevAt, hpj]

/-- qtpylib `crossed_above(s1, s2)` at one row:
`s1 > s2` on this row and `s1.shift(1) <= s2.shift(1)` on the previous
(false at the first row, where the shift gives `NaN`). -/
def crossedAboveAt (p1 p2 c1 c2 : Option ℚ) : Bool :=
  oGT c1 c2 && oLE p1 p2

/-- qtpylib `crossed_below(s1, s2)` at one row:
`s1 < s2` on this row and `s1.shift(1) >= s2.shift(1)` on the previous. -/
def crossedBelowAt (p1 p2 c1 c2 : Option ℚ) : Bool :=
  oLT c1 c2 && oGE p1 p2

/-! ## Model of talib EMA (external library, used for concrete runs)

talib's `EMA(series, n)` emits `NaN` for the first `n - 1` rows, seeds
row `n - 1` with the simple average of the first `n` values, then
applies the recursive smoothing `out = (x - prev) * k + prev` with
`k = 2 / (n + 1)`.  This model handles fully-defined inputs and maps
any input containing `NaN` to an all-`NaN` column (talib propagates
`NaN` through the whole tail; the distinction is not exercised here). -/

/-- All-or-nothing view of a column: `some` of the values when every
cell is defined, `none` when any cell is `NaN`. -/
def allSome : List (Option ℚ) → Option (List ℚ)
  | [] => some []
  | none :: _ => none
  | some x :: rest => (allSome rest).map fun ys => x :: ys

def smaSeed (xs : List ℚ) : ℚ := xs.sum / (xs.length : ℚ)

def emaRec (k : ℚ) (prev : ℚ) : List ℚ → List ℚ
  | [] => []
  | x :: rest =>
    let v := (x - prev) * k + prev
    v :: emaRec k v rest

def taEMA (n : ℕ) (xs : List (Option ℚ)) : List (Option ℚ) :=
  match allSome xs with
  | none => xs.map fun _ => none
  | some ys =>
    if n = 0 ∨ ys.length < n then ys.map fun _ => none
    else
      let seed := smaSeed (ys.take n)
      let k : ℚ := 2 / ((n : ℚ) + 1)
      (List.replicate (n - 1) none) ++
        (some seed :: (emaRec k seed (ys.drop n)).map some)

/-! ## ShinonV1 -/

/-- A row of the ShinonV1 dataframe after the informative merge:
base candle data, main-timeframe EMAs, the informative columns produced
by `merge_informative_pair`, and the signal columns the entry/exit hooks
assign.  Unassigned columns read as `NaN` (`none`). -/
structure SRow where
  close : Option ℚ := none
  ema13 : Option ℚ := none
  ema21 : Option ℚ := none
  informative_1h_close : Option ℚ := none
  informative_1h_ema13 : Option ℚ := none
  informative_1h_ema21 : Option ℚ := none
  enter_long : Option ℚ := none
  enter_short : Option ℚ := none
  enter_tag : Option String := none
  exit_long : Option ℚ := none
  exit_short : Option ℚ := none
  exit_tag : Option String := none
  deriving DecidableEq

/-- A row of the informative (1h) dataframe obtained from the
dataprovider inside `ShinonV1.populate_indicators`. -/
structure IRow where
  close : Option ℚ := none
  ema13 : Option ℚ := none
  ema21 : Option ℚ := none
  deriving DecidableEq

/-- `ShinonV1.populate_indicators`, with explicit state passing for the
informative dataframe obtained from `self.dp.get_analyzed_dataframe`:
the result is `(returned merged dataframe, informative dataframe after
the call)`.  `emaF` stands for `ta.EMA` and `merge` for freqtrade's
`merge_informative_pair`, both external library functions.  The
column-name lowercasing of source lines 57-58 is the identity in this
model because the fields are already lowercase. -/
def ShinonV1.populate_indicators
    (emaF : ℕ → List (Option ℚ) → List (Option ℚ))
    (merge : List SRow → List IRow → List SRow)
    (df : List SRow) (informative : List IRow) : List SRow × List IRow :=
  let closeC := df.map SRow.close
  let e13 := emaF 13 closeC
  let e21 := emaF 21 closeC
  let df1 := attachWith
    (fun i r => { r with ema13 := colAt e13 i, ema21 := colAt e21 i }) 0 df
  let icloseC := informative.map IRow.close
  let ie13 := emaF 13 icloseC
  let ie21 := emaF 21 icloseC
  let inf1 := attachWith
    (fun i r => { r with ema13 := colAt ie13 i, ema21 := colAt ie21 i })
    0 informative
  (merge df1 inf1, inf1)

/-- The long-entry mask of `ShinonV1.populate_entry_trend`:
all six `>` comparisons on main and informative timeframe. -/
def ShinonV1.entryLong (r : SRow) : Bool :=
  oGT r.close r.ema13 && oGT r.close r.ema21 && oGT r.ema13 r.ema21 &&
  oGT r.informative_1h_close r.informative_1h_ema13 &&
  oGT r.informative_1h_close r.informative_1h_ema21 &&
  oGT r.informative_1h_ema13 r.informative_1h_ema21

/-- The short-entry mask of `ShinonV1.populate_entry_trend`:
all six `<` comparisons on main and informative timeframe. -/
def ShinonV1.entryShort (r : SRow) : Bool :=
  oLT r.close r.ema13 && oLT r.close r.ema21 && oLT r.ema13 r.ema21 &&
  oLT r.informative_1h_close r.informative_1h_ema13 &&
  oLT r.informative_1h_close r.informative_1h_ema21 &&
  oLT r.informative_1h_ema13 r.informative_1h_ema21

/-- `ShinonV1.populate_entry_trend`: two sequential masked assignments,
long then short (the short mask reads only columns the long assignment
does not touch, so it is evaluated on the unmodified row). -/
def ShinonV1.populate_entry_trend (df : List SRow) : List SRow :=
  df.map fun r =>
    let r1 := if ShinonV1.entryLong r then
        { r with enter_long := some 1,
                 enter_tag := some "Long: EMA trend confirmed on main & 1h" }
      else r
    if ShinonV1.entryShort r then
      { r1 with enter_short := some 1,
                enter_tag := some "Short: EMA trend confirmed on main & 1h" }
    else r1

/-- `ShinonV1.populate_exit_trend`: exit long where `close < ema13`,
exit short where `close > ema13`. -/
def ShinonV1.populate_exit_trend (df : List SRow) : List SRow :=
  df.map fun r =>
    let r1 := if oLT r.close r.ema13 then
        { r with exit_long := some 1,
                 exit_tag := some "Exit Long: Price below EMA13" }
      else r
    if oGT r.close r.ema13 then
      { r1 with exit_short := some 1,
                exit_tag := some "Exit Short: Price above EMA13" }
    else r1

/-! ## ShinonV2 -/

/-- A row of the ShinonV2 dataframe: base candle data, the indicator
columns its `populate_indicators` assigns, and the signal columns. -/
structure V2Row where
  «open» : Option ℚ := none
  high : Option ℚ := none
  low : Option ℚ := none
  close : Option ℚ := none
  volume : Option ℚ := none
  bb_lower : Option ℚ := none
  bb_middle : Option ℚ := none
  bb_upper : Option ℚ := none
  atr : Option ℚ := none
  volume_ma : Option ℚ := none
  adx : Option ℚ := none
  plus_di : Option ℚ := none
  minus_di : Option ℚ := none
  enter_long : Option ℚ := none
  enter_short : Option ℚ := none
  exit_long : Option ℚ := none
  exit_short : Option ℚ := none
  deriving DecidableEq

/-- The five price/volume bar columns of a ShinonV2 row. -/
def V2Row.bar (r : V2Row) :
    Option ℚ × Option ℚ × Option ℚ × Option ℚ × Option ℚ :=
  (r.«open», r.high, r.low, r.close, r.volume)

/-- The static `stoploss = -0.15` attribute of `ShinonV2`. -/
def ShinonV2.stoploss : ℚ := -(15 / 100)

/-- `ShinonV2.populate_indicators`.  `bollinger` stands for
`qtpylib.bollinger_bands` (returning the lower/mid/upper series),
`taATR`/`taADX`/`taPLUS_DI`/`taMINUS_DI` for the talib functions called
on the whole dataframe, and `taSMA` for `ta.SMA` on a single column;
all are external library functions.  `bbLen`/`bbDev` are the
`bb_length`/`bb_dev` hyperparameter values (defaults 20 and 1.8). -/
def ShinonV2.populate_indicators
    (bollinger : ℕ → ℚ → List (Option ℚ) →
      List (Option ℚ) × List (Option ℚ) × List (Option ℚ))
    (taATR : ℕ → List V2Row → List (Option ℚ))
    (taSMA : ℕ → List (Option ℚ) → List (Option ℚ))
    (taADX taPLUS_DI taMINUS_DI : ℕ → List V2Row → List (Option ℚ))
    (bbLen : ℕ) (bbDev : ℚ) (df : List V2Row) : List V2Row :=
  let b := bollinger bbLen bbDev (df.map V2Row.close)
  let atrC := taATR 14 df
  let volMaC := taSMA 20 (df.map V2Row.volume)
  let adxC := taADX 14 df
  let pdiC := taPLUS_DI 14 df
  let mdiC := taMINUS_DI 14 df
  attachWith
    (fun i r =>
      { r with bb_lower := colAt b.1 i, bb_middle := colAt b.2.1 i,
               bb_upper := colAt b.2.2 i, atr := colAt atrC i,
               volume_ma := colAt volMaC i, adx := colAt adxC i,
               plus_di := colAt pdiC i, minus_di := colAt mdiC i })
    0 df

/-- The long-entry mask of `ShinonV2.populate_entry_trend`, with the
`volume_filter` value `vf` and the `trend_filter` choice `tf`:
`close < bb_lower`, `volume > volume_ma * vf`, `adx > 30` when the
trend filter is on, and `plus_di > minus_di`. -/
def ShinonV2.entryLong (vf : ℚ) (tf : Bool) (r : V2Row) : Bool :=
  oLT r.close r.bb_lower &&
  oGT r.volume (r.volume_ma.map fun v => v * vf) &&
  (if tf then oGT r.adx (some 30) else true) &&
  oGT r.plus_di r.minus_di

/-- The short-entry mask of `ShinonV2.populate_entry_trend`. -/
def ShinonV2.entryShort (vf : ℚ) (tf : Bool) (r : V2Row) : Bool :=
  oGT r.close r.bb_upper &&
  oGT r.volume (r.volume_ma.map fun v => v * vf) &&
  (if tf then oGT r.adx (some 30) else true) &&
  oGT r.minus_di r.plus_di

/-- `ShinonV2.populate_entry_trend`: two sequential masked assignments
writing the scalar `1` into `enter_long` / `enter_short`. -/
def ShinonV2.populate_entry_trend (vf : ℚ) (tf : Bool)
    (df : List V2Row) : List V2Row :=
  df.map fun r =>
    let r1 := if ShinonV2.entryLong vf tf r then
        { r with enter_long := some 1 } else r
    if ShinonV2.entryShort vf tf r then
      { r1 with enter_short := some 1 } else r1

/-- `ShinonV2.custom_stoploss`: returns the static stoploss when the
analyzed dataframe is `None` or empty; otherwise clamps
`atr / current_rate` into `[0.03, 0.07]` via Python `max`/`min` and
signs the result by trade direction. -/
def ShinonV2.custom_stoploss (df : Option (List V2Row)) (is_short : Bool)
    (current_rate : ℚ) : ℚ :=
  match df with
  | none => ShinonV2.stoploss
  | some rows =>
    match rows.getLast? with
    | none => ShinonV2.stoploss
    | some last_row =>
      let risk_pct := last_row.atr.map fun a => a / current_rate
      let dynamic_sl := pymaxNaN (3 / 100) (pyminNaN risk_pct (7 / 100))
      if is_short then dynamic_sl else -dynamic_sl

/-- `ShinonV2.custom_exit`: `False` when the analyzed dataframe is
`None` or empty; otherwise exits when `current_profit` reaches the
ATR-based target, itself clamped into `[0.05, 0.15]`. -/
def ShinonV2.custom_exit (df : Option (List V2Row))
    (current_rate current_profit : ℚ) : Bool :=
  match df with
  | none => false
  | some rows =>
    match rows.getLast? with
    | none => false
    | some last_row =>
      let risk_pct := last_row.atr.map fun a => a / current_rate
      let target1 := 4 * pymaxNaN (3 / 100) (pyminNaN risk_pct (7 / 100))
      let target_profit := max (5 / 100 : ℚ) (min target1 (15 / 100))
      if current_profit ≥ target_profit then true else false

/-! ## ZaratustraV2 -/

/-- A row of the ZaratustraV2 dataframe: base candle data, the
indicator columns of `populate_indicators`, the `stoploss` column of
`populate_exit_trend`, and the signal columns. -/
structure ZRow where
  «open» : Option ℚ := none
  high : Option ℚ := none
  low : Option ℚ := none
  close : Option ℚ := none
  volume : Option ℚ := none
  atr : Option ℚ := none
  rsi : Option ℚ := none
  ema_200 : Option ℚ := none
  market_trend : Option ℚ := none
  dx : Option ℚ := none
  adx : Option ℚ := none
  pdi : Option ℚ := none
  mdi : Option ℚ := none
  volatility : Option ℚ := none
  stoploss : Option ℚ := none
  enter_long : Option ℚ := none
  enter_short : Option ℚ := none
  enter_tag : Option String := none
  exit_long : Option ℚ := none
  exit_short : Option ℚ := none
  exit_tag : Option String := none
  deriving DecidableEq

/-- The five price/volume bar columns of a ZaratustraV2 row. -/
def ZRow.bar (r : ZRow) :
    Option ℚ × Option ℚ × Option ℚ × Option ℚ × Option ℚ :=
  (r.«open», r.high, r.low, r.close, r.volume)

/-- The `max_dca_multiplier = 1.5` attribute of `ZaratustraV2`. -/
def ZaratustraV2.max_dca_multiplier : ℚ := 3 / 2

/-- `ZaratustraV2.custom_stake_amount`: divides the proposed stake by
`max_dca_multiplier` and takes Python `max` with `min_stake`.  When the
host passes `min_stake = None`, Python `max(float, None)` raises
`TypeError`, embedded as the error case. -/
def ZaratustraV2.custom_stake_amount (proposed_stake : ℚ)
    (min_stake : Option ℚ) : Except String ℚ :=
  let adjusted_stake := proposed_stake / ZaratustraV2.max_dca_multiplier
  match min_stake with
  | some m => .ok (max adjusted_stake m)
  | none => .error "TypeError: NoneType and float are not comparable"

/-- `ZaratustraV2.adjust_trade_position`: reads the last `atr` of the
analyzed dataframe with no `None`/empty guard — `None['atr']` raises
`TypeError` and `.iloc[-1]` on an empty column raises `IndexError` —
then returns a stake delta or `None`.  The two branches of the
`entry_side` test are identical in the source and are kept here. -/
def ZaratustraV2.adjust_trade_position (df : Option (List ZRow))
    (entry_side : String) (current_rate current_profit stake_amount : ℚ)
    (nr_of_successful_exits : ℕ) : Except String (Option ℚ) :=
  match df with
  | none => .error "TypeError: NoneType object is not subscriptable"
  | some rows =>
    match rows.getLast? with
    | none => .error "IndexError: single positional indexer is out-of-bounds"
    | some last_row =>
      let atr := last_row.atr
      if entry_side = "buy" then
        if current_profit > 1 / 10 ∧ nr_of_successful_exits = 0 then
          .ok (some (-(stake_amount / 2)))
        else if oLT (some current_profit)
            (atr.map fun a => -(5 / 100) * (a / current_rate)) then
          .ok (some (stake_amount * (6 / 10)))
        else .ok none
      else
        if current_profit > 1 / 10 ∧ nr_of_successful_exits = 0 then
          .ok (some (-(stake_amount / 2)))
        else if oLT (some current_profit)
            (atr.map fun a => -(5 / 100) * (a / current_rate)) then
          .ok (some (stake_amount * (6 / 10)))
        else .ok none

/-- `ZaratustraV2.populate_indicators`.  The talib calls are external
library functions taken as parameters (`taSMA` is called with talib's
default period 30 where the source omits `timeperiod`); the volume
weighting, `np.where` market trend and `atr / close` volatility are
computed elementwise as in the source. -/
def ZaratustraV2.populate_indicators
    (taATR taRSI taEMAdf taDX taADX taPLUS_DI taMINUS_DI :
      ℕ → List ZRow → List (Option ℚ))
    (taSMA : ℕ → List (Option ℚ) → List (Option ℚ))
    (df : List ZRow) : List ZRow :=
  let atrC := taATR 14 df
  let rsiC := taRSI 14 df
  let emaC := taEMAdf 200 df
  let closeC := df.map ZRow.close
  let volC := df.map ZRow.volume
  let mtC := List.zipWith
    (fun c e => some (if oGT c e then (1 : ℚ) else -1)) closeC emaC
  let dxC := List.zipWith oDivO (taSMA 30 (List.zipWith oMul (taDX 14 df) volC))
    (taSMA 30 volC)
  let adxC := List.zipWith oDivO (taSMA 30 (List.zipWith oMul (taADX 14 df) volC))
    (taSMA 30 volC)
  let pdiC := List.zipWith oDivO
    (taSMA 30 (List.zipWith oMul (taPLUS_DI 14 df) volC)) (taSMA 30 volC)
  let mdiC := List.zipWith oDivO
    (taSMA 30 (List.zipWith oMul (taMINUS_DI 14 df) volC)) (taSMA 30 volC)
  let volatC := List.zipWith oDivO atrC closeC
  attachWith
    (fun i r =>
      { r with atr := colAt atrC i, rsi := colAt rsiC i,
               ema_200 := colAt emaC i, market_trend := colAt mtC i,
               dx := colAt dxC i, adx := colAt adxC i,
               pdi := colAt pdiC i, mdi := colAt mdiC i,
               volatility := colAt volatC i })
    0 df

/-- The long-entry mask of `ZaratustraV2.populate_entry_trend` at one
row (`prev` is the previous row, for the crossover shift):
uptrend regime, `dx` crossed above `pdi`, `adx` above threshold,
`pdi > mdi`, `rsi` above threshold, volatility below 5%. -/
def ZaratustraV2.entryLong (adxT rsiT : ℚ) (prev : Option ZRow)
    (r : ZRow) : Bool :=
  oEQ r.market_trend (some 1) &&
  crossedAboveAt (prev.bind ZRow.dx) (prev.bind ZRow.pdi) r.dx r.pdi &&
  oGT r.adx (some adxT) &&
  oGT r.pdi r.mdi &&
  oGT r.rsi (some rsiT) &&
  oLT r.volatility (some (5 / 100))

/-- The short-entry mask of `ZaratustraV2.populate_entry_trend` at one
row: downtrend regime, `dx` crossed above `mdi`, `adx` above threshold,
`mdi > pdi`, `rsi` below `100 - rsiT`, volatility below 5%. -/
def ZaratustraV2.entryShort (adxT rsiT : ℚ) (prev : Option ZRow)
    (r : ZRow) : Bool :=
  oEQ r.market_trend (some (-1)) &&
  crossedAboveAt (prev.bind ZRow.dx) (prev.bind ZRow.mdi) r.dx r.mdi &&
  oGT r.adx (some adxT) &&
  oGT r.mdi r.pdi &&
  oLT r.rsi (some (100 - rsiT)) &&
  oLT r.volatility (some (5 / 100))

/-- `ZaratustraV2.populate_entry_trend` with the `adx_threshold` and
`rsi_threshold` hyperparameter values (defaults 21 and 64). -/
def ZaratustraV2.populate_entry_trend (adxT rsiT : ℚ)
    (df : List ZRow) : List ZRow :=
  (withPrev df).map fun pr =>
    let r1 := if ZaratustraV2.entryLong adxT rsiT pr.1 pr.2 then
        { pr.2 with enter_long := some 1,
                    enter_tag := some "ZaratustraDCA Entry Long" }
      else pr.2
    if ZaratustraV2.entryShort adxT rsiT pr.1 pr.2 then
      { r1 with enter_short := some 1,
                enter_tag := some "ZaratustraDCA Entry Short" }
    else r1

/-- `ZaratustraV2.populate_exit_trend` with the `atr_multiplier` and
`adx_threshold` hyperparameter values: first assigns the `stoploss`
column `atr * atr_multiplier` on every row, then the two masked exit
assignments, both gated on `dx` crossing below `adx`. -/
def ZaratustraV2.populate_exit_trend (atrMult adxT : ℚ)
    (df : List ZRow) : List ZRow :=
  let df1 := df.map fun r => { r with stoploss := r.atr.map fun a => a * atrMult }
  (withPrev df1).map fun pr =>
    let cross := crossedBelowAt (pr.1.bind ZRow.dx) (pr.1.bind ZRow.adx)
      pr.2.dx pr.2.adx
    let r1 := if cross && oGT pr.2.adx (some adxT) then
        { pr.2 with exit_long := some 1,
                    exit_tag := some "ZaratustraDCA Exit Long" }
      else pr.2
    if cross && oLE pr.2.adx (some adxT) then
      { r1 with exit_short := some 1,
                exit_tag := some "ZaratustraDCA Exit Short" }
    else r1

/-! ## Small facts about the comparison helpers -/

theorem oLT_none_right (x : Option ℚ) : oLT x none = false := by
  cases x <;> rfl

theorem oGT_none_right (x : Option ℚ) : oGT x none = false := by
  cases x <;> rfl

theorem oLT_self (x : Option ℚ) : oLT x x = false := by
  cases x with
  | none => rfl
  | some a => simp [oLT]

theorem oGT_self (x : Option ℚ) : oGT x x = false := by
  cases x with
  | none => rfl
  | some a => simp [oGT]

/-! ## Claim theorems -/

/-- C3: `ShinonV1.populate_entry_trend` sets `enter_long = 1` at exactly
the rows where all six `>` comparisons (main close/ema13/ema21 and the
three informative ones) hold, `enter_short = 1` at exactly the rows
where all six reversed `<` comparisons hold, and leaves every other
row without an entry flag. -/
theorem shinonV1_entry_exact (df : List SRow) (i : ℕ) (r : SRow)
    (hr : df.get? i = some r)
    (hl : r.enter_long = none) (hs : r.enter_short = none) :
    ∃ r', (ShinonV1.populate_entry_trend df).get? i = some r' ∧
      r'.enter_long = (if ShinonV1.entryLong r then some 1 else none) ∧
      r'.enter_short = (if ShinonV1.entryShort r then some 1 else none) := by
  unfold ShinonV1.populate_entry_trend
  rw [List.get?_map, hr]
  refine ⟨_, rfl, ?_, ?_⟩ <;>
    cases hL : ShinonV1.entryLong r <;>
    cases hS : ShinonV1.entryShort r <;>
    simp [hL, hS, hl, hs]

/-- Concrete run of `shinonV1_entry_exact` on a one-row dataframe with
a confirmed uptrend on both timeframes. -/
def sRowEx : SRow :=
  { close := some 10, ema13 := some 9, ema21 := some 8,
    informative_1h_close := some 10, informative_1h_ema13 := some 9,
    informative_1h_ema21 := some 8 }

theorem shinonV1_entry_exact_witness :
    ∃ r', (ShinonV1.populate_entry_trend [sRowEx]).get? 0 = some r' ∧
      r'.enter_long = (if ShinonV1.entryLong sRowEx then some 1 else none) ∧
      r'.enter_short = (if ShinonV1.entryShort sRowEx then some 1 else none) :=
  shinonV1_entry_exact [sRowEx] 0 sRowEx rfl rfl rfl

/-- C5: `ShinonV1.populate_exit_trend` sets `exit_long = 1` exactly when
`close < ema13` and `exit_short = 1` exactly when `close > ema13`; a row
where `close` equals `ema13`, or where `ema13` is undefined, receives
neither exit flag. -/
theorem shinonV1_exit_exact (df : List SRow) (i : ℕ) (r : SRow)
    (hr : df.get? i = some r)
    (hl : r.exit_long = none) (hs : r.exit_short = none) :
    ∃ r', (ShinonV1.populate_exit_trend df).get? i = some r' ∧
      (r'.exit_long = some 1 ↔ oLT r.close r.ema13 = true) ∧
      (r'.exit_short = some 1 ↔ oGT r.close r.ema13 = true) ∧
      (r.ema13 = none → r'.exit_long = none ∧ r'.exit_short = none) ∧
      (r.close = r.ema13 → r'.exit_long = none ∧ r'.exit_short = none) := by
  unfold ShinonV1.populate_exit_trend
  rw [List.get?_map, hr]
  refine ⟨_, rfl, ?_, ?_, ?_, ?_⟩
  · cases hL : oLT r.close r.ema13 <;>
      cases hG : oGT r.close r.ema13 <;> simp [hL, hG, hl]
  · cases hL : oLT r.close r.ema13 <;>
      cases hG : oGT r.close r.ema13 <;> simp [hL, hG, hs]
  · intro hema
    simp [hema, oLT_none_right, oGT_none_right, hl, hs]
  · intro heq
    simp [heq, oLT_self, oGT_self, hl, hs]

/-- Concrete run of `shinonV1_exit_exact` on a one-row dataframe where
the close sits below the EMA13. -/
def sRowExitEx : SRow := { close := some 5, ema13 := some 6 }

theorem shinonV1_exit_exact_witness :
    ∃ r', (ShinonV1.populate_exit_trend [sRowExitEx]).get? 0 = some r' ∧
      (r'.exit_long = some 1 ↔ oLT sRowExitEx.close sRowExitEx.ema13 = true) ∧
      (r'.exit_short = some 1 ↔ oGT sRowExitEx.close sRowExitEx.ema13 = true) ∧
      (sRowExitEx.ema13 = none → r'.exit_long = none ∧ r'.exit_short = none) ∧
      (sRowExitEx.close = sRowExitEx.ema13 →
        r'.exit_long = none ∧ r'.exit_short = none) :=
  shinonV1_exit_exact [sRowExitEx] 0 sRowExitEx rfl rfl rfl

/-- C4: with the default hyperparameters (`bb_length = 20`,
`bb_dev = 1.8`, `volume_filter = 1.1`, `trend_filter = True`),
`ShinonV2.populate_entry_trend` sets `enter_long = 1` at exactly the
rows with `close < bb_lower`, `volume > volume_ma * 1.1`, `adx > 30`
and `plus_di > minus_di`, and `enter_short = 1` at exactly the rows
with `close > bb_upper`, `volume > volume_ma * 1.1`, `adx > 30` and
`minus_di > plus_di`. -/
theorem shinonV2_entry_defaults (df : List V2Row) (i : ℕ) (r : V2Row)
    (hr : df.get? i = some r)
    (hl : r.enter_long = none) (hs : r.enter_short = none) :
    ∃ r', (ShinonV2.populate_entry_trend (11 / 10) true df).get? i = some r' ∧
      r'.enter_long = (if
          (oLT r.close r.bb_lower &&
           oGT r.volume (r.volume_ma.map fun v => v * (11 / 10)) &&
           oGT r.adx (some 30) && oGT r.plus_di r.minus_di)
        then some 1 else none) ∧
      r'.enter_short = (if
          (oGT r.close r.bb_upper &&
           oGT r.volume (r.volume_ma.map fun v => v * (11 / 10)) &&
           oGT r.adx (some 30) && oGT r.minus_di r.plus_di)
        then some 1 else none) := by
  have hLdef : ShinonV2.entryLong (11 / 10) true r =
      (oLT r.close r.bb_lower &&
       oGT r.volume (r.volume_ma.map fun v => v * (11 / 10)) &&
       oGT r.adx (some 30) && oGT r.plus_di r.minus_di) := by
    simp [ShinonV2.entryLong]
  have hSdef : ShinonV2.entryShort (11 / 10) true r =
      (oGT r.close r.bb_upper &&
       oGT r.volume (r.volume_ma.map fun v => v * (11 / 10)) &&
       oGT r.adx (some 30) && oGT r.minus_di r.plus_di) := by
    simp [ShinonV2.entryShort]
  unfold ShinonV2.populate_entry_trend
  rw [List.get?_map, hr]
  refine ⟨_, rfl, ?_, ?_⟩ <;>
    simp only [← hLdef, ← hSdef] <;>
    cases hL : ShinonV2.entryLong (11 / 10) true r <;>
    cases hS : ShinonV2.entryShort (11 / 10) true r <;>
    simp [hL, hS, hl, hs]

/-- Concrete run of `shinonV2_entry_defaults` on a one-row dataframe
that meets every long-entry condition. -/
def v2RowEx : V2Row :=
  { close := some 95, bb_lower := some 96, bb_upper := some 110,
    volume := some 300, volume_ma := some 200, adx := some 40,
    plus_di := some 30, minus_di := some 10 }

theorem shinonV2_entry_defaults_witness :
    ∃ r', (ShinonV2.populate_entry_trend (11 / 10) true [v2RowEx]).get? 0
        = some r' ∧
      r'.enter_long = (if
          (oLT v2RowEx.close v2RowEx.bb_lower &&
           oGT v2RowEx.volume (v2RowEx.volume_ma.map fun v => v * (11 / 10)) &&
           oGT v2RowEx.adx (some 30) && oGT v2RowEx.plus_di v2RowEx.minus_di)
        then some 1 else none) ∧
      r'.enter_short = (if
          (oGT v2RowEx.close v2RowEx.bb_upper &&
           oGT v2RowEx.volume (v2RowEx.volume_ma.map fun v => v * (11 / 10)) &&
           oGT v2RowEx.adx (some 30) && oGT v2RowEx.minus_di v2RowEx.plus_di)
        then some 1 else none) :=
  shinonV2_entry_defaults [v2RowEx] 0 v2RowEx rfl rfl rfl

/-- A two-row dataframe for `ZaratustraV2.populate_entry_trend`:
row 1 meets every short-entry condition except `adx > 21`. -/
def zPrevEx : ZRow := { dx := some 0, mdi := some 1, pdi := some 0 }

def zCurEx : ZRow :=
  { market_trend := some (-1), dx := some 2, mdi := some 1, pdi := some 0,
    rsi := some 30, volatility := some (1 / 100), adx := some 10 }

/-- C6 (counterexample): the claim characterizes the short entry of
`ZaratustraV2.populate_entry_trend` without the `adx > adx_threshold`
condition that the source imposes on both sides.  On this two-row
dataframe every condition the claim lists for a short entry holds at
row 1 (downtrend, `dx` crossed above `mdi`, `mdi > pdi`, `rsi = 30 <
36`, `volatility = 0.01 < 0.05`) yet `adx = 10 ≤ 21`, and the code
leaves `enter_short` unset, refuting the claim at defaults. -/
theorem zaratustra_entry_short_counterexample :
    (oEQ zCurEx.market_trend (some (-1)) &&
     oGT zCurEx.dx zCurEx.mdi && oLE zPrevEx.dx zPrevEx.mdi &&
     oGT zCurEx.mdi zCurEx.pdi && oLT zCurEx.rsi (some 36) &&
     oLT zCurEx.volatility (some (5 / 100))) = true ∧
    ((ZaratustraV2.populate_entry_trend 21 64 [zPrevEx, zCurEx]).get? 1).map
      ZRow.enter_short = some none := by
  constructor
  · norm_num [zPrevEx, zCurEx, oEQ, oGT, oLE, oLT]
  · norm_num [ZaratustraV2.populate_entry_trend, withPrev, zPrevEx, zCurEx,
      ZaratustraV2.entryLong, ZaratustraV2.entryShort, crossedAboveAt,
      oEQ, oGT, oLE, oLT, List.zip]

/-- C6 (amended): with the default parameters (`adx_threshold = 21`,
`rsi_threshold = 64`), `ZaratustraV2.populate_entry_trend` sets
`enter_long = 1` at exactly the rows where `dx` crossed above `pdi`
(`dx > pdi` here and `dx <= pdi` on the previous row) while
`market_trend == 1`, `adx > 21`, `pdi > mdi`, `rsi > 64` and
`volatility < 0.05`; and sets `enter_short = 1` at exactly the rows
where `dx` crossed above `mdi` while `market_trend == -1`, **`adx >
21`**, `mdi > pdi`, `rsi < 36` and `volatility < 0.05` — the `adx`
condition applies to the short side as well. -/
theorem zaratustra_entry_defaults (df : List ZRow) (i : ℕ) (p r : ZRow)
    (hp : df.get? i = some p) (hr : df.get? (i + 1) = some r)
    (hl : r.enter_long = none) (hs : r.enter_short = none) :
    ∃ r', (ZaratustraV2.populate_entry_trend 21 64 df).get? (i + 1) = some r' ∧
      r'.enter_long = (if
          (oEQ r.market_trend (some 1) &&
           oGT r.dx r.pdi && oLE p.dx p.pdi &&
           oGT r.adx (some 21) && oGT r.pdi r.mdi &&
           oGT r.rsi (some 64) && oLT r.volatility (some (5 / 100)))
        then some 1 else none) ∧
      r'.enter_short = (if
          (oEQ r.market_trend (some (-1)) &&
           oGT r.dx r.mdi && oLE p.dx p.mdi &&
           oGT r.adx (some 21) && oGT r.mdi r.pdi &&
           oLT r.rsi (some 36) && oLT r.volatility (some (5 / 100)))
        then some 1 else none) := by
  have hprev : prevAt df (i + 1) = some p := hp
  have hLdef : ZaratustraV2.entryLong 21 64 (some p) r =
      (oEQ r.market_trend (some 1) &&
       oGT r.dx r.pdi && oLE p.dx p.pdi &&
       oGT r.adx (some 21) && oGT r.pdi r.mdi &&
       oGT r.rsi (some 64) && oLT r.volatility (some (5 / 100))) := by
    simp only [ZaratustraV2.entryLong, crossedAboveAt, Option.bind_eq_bind,
      Option.some_bind]
    cases oEQ r.market_trend (some 1) <;>
      cases oGT r.dx r.pdi <;> cases oLE p.dx p.pdi <;> simp
  have hSdef : ZaratustraV2.entryShort 21 64 (some p) r =
      (oEQ r.market_trend (some (-1)) &&
       oGT r.dx r.mdi && oLE p.dx p.mdi &&
       oGT r.adx (some 21) && oGT r.mdi r.pdi &&
       oLT r.rsi (some 36) && oLT r.volatility (some (5 / 100))) := by
    simp only [ZaratustraV2.entryShort, crossedAboveAt, Option.bind_eq_bind,
      Option.some_bind]
    have h36 : (100 : ℚ) - 64 = 36 := by norm_num
    rw [h36]
    cases oEQ r.market_trend (some (-1)) <;>
      cases oGT r.dx r.mdi <;> cases oLE p.dx p.mdi <;> simp
  unfold ZaratustraV2.populate_entry_trend
  rw [List.get?_map, withPrev_get? df (i + 1) r hr, hprev]
  refine ⟨_, rfl, ?_, ?_⟩ <;>
    simp only [← hLdef, ← hSdef] <;>
    cases hL : ZaratustraV2.entryLong 21 64 (some p) r <;>
    cases hS : ZaratustraV2.entryShort 21 64 (some p) r <;>
    simp [hL, hS, hl, hs]

/-- Concrete run of `zaratustra_entry_defaults` on a two-row dataframe
whose second row fires the short entry (all conditions incl. `adx > 21`). -/
def zCurEx2 : ZRow :=
  { market_trend := some (-1), dx := some 5, mdi := some 4, pdi := some 1,
    rsi := some 20, volatility := some (1 / 100), adx := some 30 }

theorem zaratustra_entry_defaults_witness :
    ∃ r', (ZaratustraV2.populate_entry_trend 21 64 [zPrevEx, zCurEx2]).get? 1
        = some r' ∧
      r'.enter_long = (if
          (oEQ zCurEx2.market_trend (some 1) &&
           oGT zCurEx2.dx zCurEx2.pdi && oLE zPrevEx.dx zPrevEx.pdi &&
           oGT zCurEx2.adx (some 21) && oGT zCurEx2.pdi zCurEx2.mdi &&
           oGT zCurEx2.rsi (some 64) && oLT zCurEx2.volatility (some (5 / 100)))
        then some 1 else none) ∧
      r'.enter_short = (if
          (oEQ zCurEx2.market_trend (some (-1)) &&
           oGT zCurEx2.dx zCurEx2.mdi && oLE zPrevEx.dx zPrevEx.mdi &&
           oGT zCurEx2.adx (some 21) && oGT zCurEx2.mdi zCurEx2.pdi &&
           oLT zCurEx2.rsi (some 36) && oLT zCurEx2.volatility (some (5 / 100)))
        then some 1 else none) :=
  zaratustra_entry_defaults [zPrevEx, zCurEx2] 0 zPrevEx zCurEx2 rfl rfl rfl rfl

theorem prevAt_map {α : Type u} {β : Type v} (f : α → β) (l : List α) (i : ℕ) :
    prevAt (l.map f) i = (prevAt l i).map f := by
  cases i with
  | zero => rfl
  | succ j => simp [prevAt, List.get?_map]

/-- C9: in `ZaratustraV2.populate_exit_trend` the two exit flags are
never both set on a row, and at every row where `dx` crossed below
`adx` exactly one of them is set: `exit_long` when
`adx > adx_threshold` and `exit_short` when `adx <= adx_threshold`. -/
theorem zaratustra_exit_invariant (m t : ℚ) (df : List ZRow) (i : ℕ) (r : ZRow)
    (hr : df.get? i = some r)
    (hl : r.exit_long = none) (hs : r.exit_short = none) :
    ∃ r', (ZaratustraV2.populate_exit_trend m t df).get? i = some r' ∧
      ¬(r'.exit_long = some 1 ∧ r'.exit_short = some 1) ∧
      (crossedBelowAt ((prevAt df i).bind ZRow.dx) ((prevAt df i).bind ZRow.adx)
          r.dx r.adx = true →
        (r'.exit_long = some 1 ↔ oGT r.adx (some t) = true) ∧
        (r'.exit_short = some 1 ↔ oLE r.adx (some t) = true) ∧
        (r'.exit_long = some 1 ∨ r'.exit_short = some 1)) := by
  have hr1 : (df.map fun q => { q with stoploss := q.atr.map fun a => a * m }).get? i
      = some { r with stoploss := r.atr.map fun a => a * m } := by
    rw [List.get?_map, hr]; rfl
  have hbdx : ((prevAt df i).map
        (fun q => { q with stoploss := q.atr.map fun a => a * m })).bind ZRow.dx
      = (prevAt df i).bind ZRow.dx := by
    cases prevAt df i <;> rfl
  have hbadx : ((prevAt df i).map
        (fun q => { q with stoploss := q.atr.map fun a => a * m })).bind ZRow.adx
      = (prevAt df i).bind ZRow.adx := by
    cases prevAt df i <;> rfl
  unfold ZaratustraV2.populate_exit_trend
  rw [List.get?_map, withPrev_get? _ i _ hr1, prevAt_map]
  refine ⟨_, rfl, ?_, ?_⟩ <;>
    simp only [hbdx, hbadx] <;>
    cases hc : crossedBelowAt ((prevAt df i).bind ZRow.dx)
      ((prevAt df i).bind ZRow.adx) r.dx r.adx
  · simp [hl, hs]
  · cases hadx : r.adx with
    | none =>
      rw [crossedBelowAt, hadx, oLT_none_right] at hc
      simp at hc
    | some av =>
      rcases le_or_lt av t with hle | hgt
      · have h1 : oGT (some av) (some t) = false := by
          simp [oGT, not_lt_of_le hle]
        have h2 : oLE (some av) (some t) = true := by simp [oLE, hle]
        simp [hadx, h1, h2, hl]
      · have h1 : oGT (some av) (some t) = true := by simp [oGT, hgt]
        have h2 : oLE (some av) (some t) = false := by
          simp [oLE, not_le_of_lt hgt]
        simp [hadx, h1, h2, hs]
  · intro hcontra
    exact absurd hcontra (by simp)
  · intro _
    cases hadx : r.adx with
    | none =>
      rw [crossedBelowAt, hadx, oLT_none_right] at hc
      simp at hc
    | some av =>
      rcases le_or_lt av t with hle | hgt
      · have h1 : oGT (some av) (some t) = false := by
          simp [oGT, not_lt_of_le hle]
        have h2 : oLE (some av) (some t) = true := by simp [oLE, hle]
        simp [hadx, h1, h2, hl, hs]
      · have h1 : oGT (some av) (some t) = true := by simp [oGT, hgt]
        have h2 : oLE (some av) (some t) = false := by
          simp [oLE, not_le_of_lt hgt]
        simp [hadx, h1, h2, hl, hs]

/-- Concrete run of `zaratustra_exit_invariant` on a two-row dataframe
whose second row has `dx` crossing below `adx` with a weak `adx`. -/
def zExitPrev : ZRow := { dx := some 5, adx := some 3 }

def zExitCur : ZRow := { dx := some 1, adx := some 2 }

theorem zaratustra_exit_invariant_witness :
    ∃ r', (ZaratustraV2.populate_exit_trend 4 21 [zExitPrev, zExitCur]).get? 1
        = some r' ∧
      ¬(r'.exit_long = some 1 ∧ r'.exit_short = some 1) ∧
      (crossedBelowAt ((prevAt [zExitPrev, zExitCur] 1).bind ZRow.dx)
          ((prevAt [zExitPrev, zExitCur] 1).bind ZRow.adx)
          zExitCur.dx zExitCur.adx = true →
        (r'.exit_long = some 1 ↔ oGT zExitCur.adx (some 21) = true) ∧
        (r'.exit_short = some 1 ↔ oLE zExitCur.adx (some 21) = true) ∧
        (r'.exit_long = some 1 ∨ r'.exit_short = some 1)) :=
  zaratustra_exit_invariant 4 21 [zExitPrev, zExitCur] 1 zExitCur rfl rfl rfl

/-- C8: when the analyzed dataframe is non-empty, its last `atr` is a
positive real and `current_rate` is positive, `ShinonV2.custom_stoploss`
returns `atr / current_rate` clamped into `[0.03, 0.07]` in magnitude,
so its absolute value always lies in that interval, and the sign is
positive for a short trade and negative otherwise. -/
theorem shinonV2_custom_stoploss_bounds (rows : List V2Row) (lastR : V2Row)
    (a rate : ℚ) (hlast : rows.getLast? = some lastR)
    (hatr : lastR.atr = some a) (ha : 0 < a) (hrate : 0 < rate)
    (is_short : Bool) :
    |ShinonV2.custom_stoploss (some rows) is_short rate| =
        max (3 / 100) (min (a / rate) (7 / 100)) ∧
    3 / 100 ≤ |ShinonV2.custom_stoploss (some rows) is_short rate| ∧
    |ShinonV2.custom_stoploss (some rows) is_short rate| ≤ 7 / 100 ∧
    (is_short = true → 0 < ShinonV2.custom_stoploss (some rows) is_short rate) ∧
    (is_short = false → ShinonV2.custom_stoploss (some rows) is_short rate < 0)
    := by
  have hshort : ShinonV2.custom_stoploss (some rows) true rate =
      max (3 / 100) (min (a / rate) (7 / 100)) := by
    simp only [ShinonV2.custom_stoploss, hlast, hatr, pyminNaN, pymaxNaN]
    simp
  have hlong : ShinonV2.custom_stoploss (some rows) false rate =
      -(max (3 / 100) (min (a / rate) (7 / 100))) := by
    simp only [ShinonV2.custom_stoploss, hlast, hatr, pyminNaN, pymaxNaN]
    simp
  have hpos : (0 : ℚ) < max (3 / 100) (min (a / rate) (7 / 100)) :=
    lt_of_lt_of_le (by norm_num) (le_max_left _ _)
  have hlo : (3 / 100 : ℚ) ≤ max (3 / 100) (min (a / rate) (7 / 100)) :=
    le_max_left _ _
  have hhi : max (3 / 100 : ℚ) (min (a / rate) (7 / 100)) ≤ 7 / 100 :=
    max_le (by norm_num) (min_le_right _ _)
  cases is_short with
  | false =>
    rw [hlong]
    refine ⟨?_, ?_, ?_, ?_, ?_⟩
    · rw [abs_neg, abs_of_pos hpos]
    · rw [abs_neg, abs_of_pos hpos]; exact hlo
    · rw [abs_neg, abs_of_pos hpos]; exact hhi
    · intro h; exact absurd h (by simp)
    · intro _; exact neg_neg_of_pos hpos
  | true =>
    rw [hshort]
    refine ⟨abs_of_pos hpos, ?_, ?_, fun _ => hpos, ?_⟩
    · rw [abs_of_pos hpos]; exact hlo
    · rw [abs_of_pos hpos]; exact hhi
    · intro h; exact absurd h (by simp)

/-- Concrete run of `shinonV2_custom_stoploss_bounds` on a one-row
dataframe with `atr = 1` and `current_rate = 20` for a long trade. -/
def v2slRow : V2Row := { atr := some 1 }

theorem shinonV2_custom_stoploss_bounds_witness :
    |ShinonV2.custom_stoploss (some [v2slRow]) false 20| =
        max (3 / 100) (min ((1 : ℚ) / 20) (7 / 100)) ∧
    3 / 100 ≤ |ShinonV2.custom_stoploss (some [v2slRow]) false 20| ∧
    |ShinonV2.custom_stoploss (some [v2slRow]) false 20| ≤ 7 / 100 ∧
    (false = true → 0 < ShinonV2.custom_stoploss (some [v2slRow]) false 20) ∧
    (false = false → ShinonV2.custom_stoploss (some [v2slRow]) false 20 < 0) :=
  shinonV2_custom_stoploss_bounds [v2slRow] v2slRow 1 20 rfl rfl
    (by decide) (by decide) false

/-- C1 (amended): the ShinonV2 hooks that read the analyzed dataframe
return their host-defined fallback on missing or empty data
(`self.stoploss` for `custom_stoploss`, `False` for `custom_exit`),
while `ZaratustraV2.adjust_trade_position` has no such guard and raises
(`TypeError` on `None`, `IndexError` on an empty dataframe) instead of
returning its `None` fallback. -/
theorem hooks_missing_data_fallback :
    (∀ (b : Bool) (rate : ℚ),
      ShinonV2.custom_stoploss none b rate = ShinonV2.stoploss) ∧
    (∀ (b : Bool) (rate : ℚ),
      ShinonV2.custom_stoploss (some []) b rate = ShinonV2.stoploss) ∧
    (∀ (rate profit : ℚ), ShinonV2.custom_exit none rate profit = false) ∧
    (∀ (rate profit : ℚ), ShinonV2.custom_exit (some []) rate profit = false) ∧
    (∀ (side : String) (rate profit stake : ℚ) (n : ℕ), ∃ e,
      ZaratustraV2.adjust_trade_position none side rate profit stake n =
        Except.error e) ∧
    (∀ (side : String) (rate profit stake : ℚ) (n : ℕ), ∃ e,
      ZaratustraV2.adjust_trade_position (some []) side rate profit stake n =
        Except.error e) :=
  ⟨fun _ _ => rfl, fun _ _ => rfl, fun _ _ => rfl, fun _ _ => rfl,
   fun _ _ _ _ _ => ⟨_, rfl⟩, fun _ _ _ _ _ => ⟨_, rfl⟩⟩

/-- C1 (counterexample): `ZaratustraV2.adjust_trade_position` does not
return its fallback `None` on missing or empty data — it raises. -/
theorem adjust_trade_position_missing_data_raises :
    ZaratustraV2.adjust_trade_position none "buy" 1 0 1 0 =
      Except.error "TypeError: NoneType object is not subscriptable" ∧
    ZaratustraV2.adjust_trade_position (some []) "buy" 1 0 1 0 =
      Except.error "IndexError: single positional indexer is out-of-bounds" :=
  ⟨rfl, rfl⟩

/-- C10: with a real `min_stake`, `ZaratustraV2.custom_stake_amount`
returns `max(proposed_stake / 1.5, min_stake)`, which is at least
`min_stake`; with `min_stake = None` the Python `max` comparison is
ill-typed and the call raises instead of returning a stake. -/
theorem zaratustra_custom_stake_amount_spec :
    (∀ (p m : ℚ),
      ZaratustraV2.custom_stake_amount p (some m) =
        Except.ok (max (p / (3 / 2)) m) ∧
      m ≤ max (p / (3 / 2)) m) ∧
    (∀ (p : ℚ), ∃ e,
      ZaratustraV2.custom_stake_amount p none = Except.error e) :=
  ⟨fun _ m => ⟨rfl, le_max_right _ m⟩, fun _ => ⟨_, rfl⟩⟩

/-- C2 (amended): every hook is a deterministic function of its
inputs (immediate in this embedding, where each hook is a pure
function), and no hook writes to host-owned data other than the table
passed in for modification — except `ShinonV1.populate_indicators`,
which also writes the `ema13` and `ema21` columns into the informative
dataframe obtained from the dataprovider.  This theorem characterizes
that mutation exactly: the informative dataframe keeps its row count
and `close` values, and its `ema13`/`ema21` columns are overwritten
with the EMA of its `close` column. -/
theorem shinonV1_informative_mutation
    (emaF : ℕ → List (Option ℚ) → List (Option ℚ))
    (merge : List SRow → List IRow → List SRow)
    (df : List SRow) (informative : List IRow) (i : ℕ) (r : IRow)
    (hr : informative.get? i = some r) :
    ((ShinonV1.populate_indicators emaF merge df informative).2).length
        = informative.length ∧
    ∃ r', ((ShinonV1.populate_indicators emaF merge df informative).2).get? i
        = some r' ∧
      r'.close = r.close ∧
      r'.ema13 = colAt (emaF 13 (informative.map IRow.close)) i ∧
      r'.ema21 = colAt (emaF 21 (informative.map IRow.close)) i := by
  constructor
  · simp only [ShinonV1.populate_indicators]
    exact attachWith_length _ 0 informative
  · simp only [ShinonV1.populate_indicators]
    rw [attachWith_get?, hr]
    exact ⟨_, rfl, rfl, by simp, by simp⟩

/-- Concrete run of `shinonV1_informative_mutation` on a one-row
informative dataframe, with `taEMA` for the library EMA and a trivial
merge. -/
def icRow : IRow := { close := some 1 }

theorem shinonV1_informative_mutation_witness :
    ((ShinonV1.populate_indicators taEMA (fun d _ => d) [] [icRow]).2).length
        = [icRow].length ∧
    ∃ r', ((ShinonV1.populate_indicators taEMA (fun d _ => d) [] [icRow]).2).get? 0
        = some r' ∧
      r'.close = icRow.close ∧
      r'.ema13 = colAt (taEMA 13 ([icRow].map IRow.close)) 0 ∧
      r'.ema21 = colAt (taEMA 21 ([icRow].map IRow.close)) 0 :=
  shinonV1_informative_mutation taEMA (fun d _ => d) [] [icRow] 0 icRow rfl

/-- A 13-row constant informative dataframe: long enough for a
13-period EMA to produce a defined value on the last row. -/
def infConst : List IRow :=
  [icRow, icRow, icRow, icRow, icRow, icRow, icRow,
   icRow, icRow, icRow, icRow, icRow, icRow]

/-- C2 (counterexample): `ShinonV1.populate_indicators` does modify the
informative dataframe obtained from the dataprovider.  On a 13-row
constant-price informative dataframe whose `ema13` column is undefined,
the call leaves row 12 of the informative state with `ema13 = 1`
(the 13-period EMA of constant 1), so the informative dataframe after
the call differs from the one supplied by the host. -/
theorem shinonV1_informative_mutation_counterexample :
    ((ShinonV1.populate_indicators taEMA (fun d _ => d) [] infConst).2.get? 12).map
        IRow.ema13 = some (some 1) ∧
    (infConst.get? 12).map IRow.ema13 = some none ∧
    (ShinonV1.populate_indicators taEMA (fun d _ => d) [] infConst).2 ≠ infConst
    := by
  have hseed :
      colAt (taEMA 13 (infConst.map IRow.close)) 12 =
        some (smaSeed [1, 1, 1, 1, 1, 1, 1, 1, 1, 1, 1, 1, 1]) := by
    rfl
  have h13 : smaSeed [(1 : ℚ), 1, 1, 1, 1, 1, 1, 1, 1, 1, 1, 1, 1] = 1 := by
    norm_num [smaSeed]
  have hL : ((ShinonV1.populate_indicators taEMA (fun d _ => d) []
      infConst).2.get? 12).map IRow.ema13 = some (some 1) := by
    simp only [ShinonV1.populate_indicators]
    rw [attachWith_get?]
    have h0 : infConst.get? 12 = some icRow := rfl
    rw [h0]
    simp [hseed, h13]
  refine ⟨hL, rfl, ?_⟩
  intro heq
  have h2 : ((ShinonV1.populate_indicators taEMA (fun d _ => d) []
      infConst).2.get? 12).map IRow.ema13 = (infConst.get? 12).map IRow.ema13 := by
    rw [heq]
  rw [hL] at h2
  have h3 : (infConst.get? 12).map IRow.ema13 = some none := rfl
  rw [h3] at h2
  simp at h2

/-- C7: `ShinonV2.populate_indicators` and
`ZaratustraV2.populate_indicators` only append derived indicator
columns: for every input table and every behavior of the external
indicator library, the output has the same number of rows, in the same
order, with the price/volume bar columns (`open`, `high`, `low`,
`close`, `volume`) unchanged at every position. -/
theorem populate_indicators_frame :
    (∀ (bollinger : ℕ → ℚ → List (Option ℚ) →
          List (Option ℚ) × List (Option ℚ) × List (Option ℚ))
        (taATR : ℕ → List V2Row → List (Option ℚ))
        (taSMA : ℕ → List (Option ℚ) → List (Option ℚ))
        (taADX taPDI taMDI : ℕ → List V2Row → List (Option ℚ))
        (bbLen : ℕ) (bbDev : ℚ) (df : List V2Row),
      (ShinonV2.populate_indicators bollinger taATR taSMA taADX taPDI taMDI
          bbLen bbDev df).map V2Row.bar = df.map V2Row.bar ∧
      (ShinonV2.populate_indicators bollinger taATR taSMA taADX taPDI taMDI
          bbLen bbDev df).length = df.length) ∧
    (∀ (taATR taRSI taEMAdf taDX taADX taPDI taMDI :
          ℕ → List ZRow → List (Option ℚ))
        (taSMA : ℕ → List (Option ℚ) → List (Option ℚ)) (df : List ZRow),
      (ZaratustraV2.populate_indicators taATR taRSI taEMAdf taDX taADX taPDI
          taMDI taSMA df).map ZRow.bar = df.map ZRow.bar ∧
      (ZaratustraV2.populate_indicators taATR taRSI taEMAdf taDX taADX taPDI
          taMDI taSMA df).length = df.length) := by
  constructor
  · intro bollinger taATR taSMA taADX taPDI taMDI bbLen bbDev df
    constructor
    · simp only [ShinonV2.populate_indicators]
      apply attachWith_map
      intro i a
      rfl
    · simp only [ShinonV2.populate_indicators]
      exact attachWith_length _ 0 df
  · intro taATR taRSI taEMAdf taDX taADX taPDI taMDI taSMA df
    constructor
    · simp only [ZaratustraV2.populate_indicators]
      apply attachWith_map
      intro i a
      rfl
    · simp only [ZaratustraV2.populate_indicators]
      exact attachWith_length _ 0 df
